import Mathlib

/-!
Verification of the delayed-notification scheduling and conversation-progress
control subsystem of an aiogram-based Telegram bot.  The definitions below are
a shallow embedding of the Python sources:

* `app/bot/handlers/private/windows.py` — menu rendering with debounce, the
  two-step delayed notification chain, and group-forwarding recovery;
* `app/bot/handlers/private/command.py` — the `/start` command handler;
* `app/bot/handlers/private/callback_query.py` — source-selection callbacks.

Pure branching code becomes a Lean function.  Effectful handler bodies become
functions that return, next to the updated state, the ordered list of
side-effect actions the Python code performs, so ordering claims are
statements about those action lists.  Where a claim is about concurrent
callback deliveries, interleaving of asyncio tasks is modelled explicitly:
every `await` in the Python source is a task switch point, and a schedule
picks which in-flight delivery runs to its next switch point.
-/

namespace UnifyHub

/-- Shallow embedding of `get_time_of_day_greeting` (windows.py lines 137-159).
The Python function computes `datetime.now(tz).hour` for the fixed reference
timezone; that wall-clock hour is taken here as the argument.  (The `except`
fallback to the day greeting fires only when the timezone lookup itself
raises, which is outside the hour bucketing.) -/
def get_time_of_day_greeting (hour : Nat) : String :=
  if 6 ≤ hour ∧ hour < 12 then "greeting_morning"
  else if 12 ≤ hour ∧ hour < 18 then "greeting_day"
  else if 18 ≤ hour ∧ hour < 23 then "greeting_evening"
  else "greeting_night"

/-- Supported language codes.  Modelled from the spec: the file
`app/bot/utils/texts.py` that defines `SUPPORTED_LANGUAGES` is not among the
provided sources; the callback handler docstring names the codes `ru` and
`en`.  Only membership of the language branch matters for the claims, and the
source-selection callback data strings are not language codes. -/
def SUPPORTED_LANGUAGES : List String := ["ru", "en"]

/-- The five online-source callback data values (callback_query.py 68-74). -/
def online_sources : List String :=
  ["source_telegram", "source_instagram", "source_facebook", "source_google",
   "source_blogger"]

/-- Response classes rendered by the private-chat callback handler. -/
inductive Response where
  | thanks
  | already
  | onlineMenu
  | mainMenuShown
  | plainAck
deriving DecidableEq, Repr

/-- Conversation state data consulted by the callback handler (the aiogram
FSM state record: `language_code` and the `source_selected` flag). -/
structure ConvState where
  language_code : String
  source_selected : Bool
deriving DecidableEq, Repr

/-- Shallow embedding of the callback-query `handler`
(callback_query.py lines 15-96), branch for branch in source order:
language selection, then `source_online` (which only swaps the inline
keyboard), then `source_offline` and the five online sources (both of which
first consult `source_selected` and answer "already chosen" when it is set,
otherwise render the thanks text and set the flag), then a bare answer. -/
def callback_handler (data : String) (st : ConvState) : ConvState × Response :=
  if data ∈ SUPPORTED_LANGUAGES then
    ({ st with language_code := data }, Response.mainMenuShown)
  else if data = "source_online" then
    (st, Response.onlineMenu)
  else if data = "source_offline" then
    if st.source_selected then (st, Response.already)
    else ({ st with source_selected := true }, Response.thanks)
  else if data ∈ online_sources then
    if st.source_selected then (st, Response.already)
    else ({ st with source_selected := true }, Response.thanks)
  else (st, Response.plainAck)

/-- One in-flight terminal source-selection delivery, at instruction
granularity.  `pc = 0`: about to execute `await manager.state.get_data()`;
`pc = 1`: the read is done and `readVal` holds the flag value that was read;
`pc = 2`: finished.  The Python statements after the read (the flag test,
`await edit_caption`/`edit_text`, `await update_data(source_selected=True)`,
`await call.answer`) are bundled into the single step at `pc = 1`; bundling
only removes switch points, so every behaviour of this coarser model is a
real asyncio interleaving of the source. -/
structure GateTask where
  pc : Nat
  readVal : Bool
deriving DecidableEq, Repr

/-- One switch-point step of a terminal delivery against the shared
`source_selected` flag.  Returns the new flag, the task, and the responses
rendered by the step. -/
def gateStep (flag : Bool) (t : GateTask) : Bool × GateTask × List Response :=
  match t.pc with
  | 0 => (flag, { pc := 1, readVal := flag }, [])
  | 1 =>
    if t.readVal then (flag, { t with pc := 2 }, [Response.already])
    else (true, { t with pc := 2 }, [Response.thanks])
  | _ => (flag, t, [])

/-- Run two concurrent terminal deliveries A and B under a schedule: each
list entry picks which delivery executes its next step (`true` = A).
Returns the concatenated list of rendered responses. -/
def runGateSched : List Bool → Bool → GateTask → GateTask → List Response
  | [], _, _, _ => []
  | pick :: rest, flag, a, b =>
    if pick then
      match gateStep flag a with
      | (flag2, a2, out) => out ++ runGateSched rest flag2 a2 b
    else
      match gateStep flag b with
      | (flag2, b2, out) => out ++ runGateSched rest flag2 a b2

/-- State data of `main_menu` relevant to debounce and chain replacement:
`last_menu_time` (the debounce timestamp, seconds) and `delayed_task_id`
(the persisted identifier of the currently scheduled chain, if any). -/
structure MenuState where
  last_menu_time : Nat
  delayed_task_id : Option String
deriving DecidableEq, Repr

/-- The process-wide `_active_tasks` dict (windows.py line 23): task id to
done-flag of the registered asyncio task (`false` = still running). -/
abbrev Registry := List (String × Bool)

/-- Lookup in the task registry: `_active_tasks.get(id)`, returning the
done-flag of the task when present. -/
def registryGet (reg : Registry) (id : String) : Option Bool :=
  (reg.find? (fun p => p.1 == id)).map (fun p => p.2)

/-- `_active_tasks.pop(id, None)`: remove the entry if present. -/
def registryPop (reg : Registry) (id : String) : Registry :=
  reg.filter (fun p => !(p.1 == id))

/-- Chain identifier construction (windows.py line 270):
`f"[user id]_[event loop time]"`. -/
def mkTaskId (userId loopNow : Nat) : String :=
  toString userId ++ "_" ++ toString loopNow

/-- A chain id belongs to a user when it was built by `mkTaskId` for that
user at some creation time. -/
def isChainOf (userId : Nat) (id : String) : Prop :=
  ∃ t, id = mkTaskId userId t

/-- The debounce cooldown: windows.py line 194 compares against the literal
3 (seconds). -/
def MENU_COOLDOWN : Nat := 3

/-- Side-effect actions performed by `Window.main_menu`, in program order. -/
inductive MenuAction where
  | updateLastMenuTime (t : Nat)
  | sendMessage
  | sleepSecs (s : Nat)
  | sendMenu
  | cancelTask (id : String)
  | popTask (id : String)
  | createTask (id : String)
  | registerTask (id : String)
  | persistTaskId (id : String)
  | setStateNone
deriving DecidableEq, Repr

/-- Shallow embedding of `Window.main_menu` (windows.py lines 179-284) as a
state transformer that also returns the ordered list of side effects.
`wallNow` is `time.time()` (used by the debounce check) and `loopNow` is
`asyncio.get_event_loop().time()` (used to build the new task id); both in
whole seconds.  Program order, faithfully: the debounce check returns early
with no side effects; otherwise `last_menu_time` is updated first, the text
message is sent, the handler sleeps 3 seconds, the menu (photo with source
buttons, or its text fallback) is sent; then the old `delayed_task_id` is
read back and, when the registry holds a not-yet-done task under it, that
task is cancelled and popped; finally the new task is created, registered,
its id persisted to `delayed_task_id`, and the FSM state cleared.  (The
photo-vs-fallback branch and the `message_id` bookkeeping inside it do not
touch the fields modelled here and are collapsed into the single `sendMenu`
action.) -/
def main_menu (userId wallNow loopNow : Nat) (st : MenuState) (reg : Registry) :
    MenuState × Registry × List MenuAction :=
  if wallNow - st.last_menu_time < MENU_COOLDOWN then
    (st, reg, [])
  else
    let st1 : MenuState := { st with last_menu_time := wallNow }
    let newId := mkTaskId userId loopNow
    let cancelPart : Registry × List MenuAction :=
      match st1.delayed_task_id with
      | none => (reg, [])
      | some oldId =>
        match registryGet reg oldId with
        | some false =>
          (registryPop reg oldId,
           [MenuAction.cancelTask oldId, MenuAction.popTask oldId])
        | _ => (reg, [])
    let st2 : MenuState := { st1 with delayed_task_id := some newId }
    (st2, (newId, false) :: cancelPart.1,
      [MenuAction.updateLastMenuTime wallNow, MenuAction.sendMessage,
       MenuAction.sleepSecs 3, MenuAction.sendMenu]
      ++ cancelPart.2
      ++ [MenuAction.createTask newId, MenuAction.registerTask newId,
          MenuAction.persistTaskId newId, MenuAction.setStateNone])

/-- The conversation record's `delayed_task_id` value as updated by one menu
action: only `persistTaskId` writes it. -/
def applyRecordAction (r : Option String) (a : MenuAction) : Option String :=
  match a with
  | MenuAction.persistTaskId id => some id
  | _ => r

/-- All values a reader of `delayed_task_id` can observe while a list of
menu actions executes in order, starting from `init`. -/
def recordTrace (init : Option String) : List MenuAction → List (Option String)
  | [] => [init]
  | a :: tr => init :: recordTrace (applyRecordAction init a) tr

/-- The two messages a notification chain can send. -/
inductive SendEvent where
  | greeting
  | followUp
deriving DecidableEq, Repr

/-- Observable outcome of one run of a notification chain: the messages it
successfully sent in order, whether its entry was removed from the task
registry (the `finally` pop), whether anything escaped the chain task, and
the writes it performed to the conversation record's `delayed_task_id`
field. -/
structure ChainResult where
  sends : List SendEvent
  removedFromRegistry : Bool
  propagates : Bool
  recordWrites : List (Option String)
deriving DecidableEq, Repr

/-- Continuation of the chain after no cancellation interrupted it: the
greeting send either raises (caught by `except Exception`, chain ends) or
succeeds; then the follow-up send either raises (caught) or succeeds.  On
every path the `finally` pop runs, nothing escapes, and `delayed_task_id`
is never written. -/
def chainFinish (greetingFails followUpFails : Bool) : ChainResult :=
  if greetingFails then
    { sends := [], removedFromRegistry := true, propagates := false,
      recordWrites := [] }
  else if followUpFails then
    { sends := [SendEvent.greeting], removedFromRegistry := true,
      propagates := false, recordWrites := [] }
  else
    { sends := [SendEvent.greeting, SendEvent.followUp],
      removedFromRegistry := true, propagates := false, recordWrites := [] }

/-- Shallow embedding of `Window._schedule_delayed_messages` (windows.py
lines 287-317).  `cancelAt` is the time, in seconds from chain creation, at
which cancellation is requested (`none` = never); `greetingFails` /
`followUpFails` say whether the respective send raises.  Timeline of the
coroutine: `await asyncio.sleep(35)`, send the greeting, `await
asyncio.sleep(8)`, send the follow-up.  A cancellation requested before the
35-second sleep finishes surfaces as `CancelledError` at that suspension
point: nothing is sent.  A cancellation requested at or after 35 but before
43 seconds lets the greeting send finish and surfaces at the 8-second
sleep: the follow-up is not sent.  A cancellation at 43 seconds or later
arrives after the coroutine is done.  `CancelledError` and every other
exception are caught inside the coroutine, and the `finally` block pops the
task id from `_active_tasks` on every path; no path writes
`delayed_task_id`. -/
def schedule_delayed_messages (cancelAt : Option Nat)
    (greetingFails followUpFails : Bool) : ChainResult :=
  match cancelAt with
  | some c =>
    if c < 35 then
      { sends := [], removedFromRegistry := true, propagates := false,
        recordWrites := [] }
    else if c < 43 then
      if greetingFails then
        { sends := [], removedFromRegistry := true, propagates := false,
          recordWrites := [] }
      else
        { sends := [SendEvent.greeting], removedFromRegistry := true,
          propagates := false, recordWrites := [] }
    else chainFinish greetingFails followUpFails
  | none => chainFinish greetingFails followUpFails

/-- Final value of the conversation record's `delayed_task_id` after the
chain's writes are applied in order. -/
def applyChainWrites (record : Option String) (ws : List (Option String)) :
    Option String :=
  ws.foldl (fun _ w => w) record

/-- Failure classes of one Telegram forward attempt, as distinguished by
`send_bot_message_to_group`: success, `TelegramBadRequest` whose message
contains "message thread not found", any other `TelegramBadRequest`, and
any other exception. -/
inductive ForwardOutcome where
  | ok
  | threadNotFound
  | badRequestOther
  | otherError
deriving DecidableEq, Repr

/-- Side-effect actions of `send_bot_message_to_group`, in program order. -/
inductive FwdAction where
  | forwardTo (threadId : Nat)
  | logInfoRecreate
  | createTopic (newId : Nat)
  | persistThreadId (newId : Nat)
  | logErrorSwallow
deriving DecidableEq, Repr

/-- Result of one call to `send_bot_message_to_group`: its ordered side
effects and whether an exception escaped the function into the caller. -/
structure FwdResult where
  actions : List FwdAction
  raised : Bool
deriving DecidableEq, Repr

/-- Shallow embedding of `send_bot_message_to_group` (windows.py lines
26-73).  `message_thread_id = 0` models a falsy thread id (no forward is
attempted at all).  `firstOutcome` is the outcome of the first
`bot.forward_message`; on `threadNotFound`, when the redis store was passed
and `redis.get_user` finds the user record, the handler logs, creates a
fresh forum topic (`newTopicId`), persists it into the user record, and
retries the forward once with the new id — that retry runs inside the
`except TelegramBadRequest` block with no surrounding handler, so when it
raises (`retryOutcome ≠ ok`) the exception escapes into the caller.  A
`threadNotFound` without the store, any other `TelegramBadRequest`, and any
other exception are logged and swallowed. -/
def send_bot_message_to_group (message_thread_id : Nat)
    (firstOutcome : ForwardOutcome) (redisAvailable userFound : Bool)
    (newTopicId : Nat) (retryOutcome : ForwardOutcome) : FwdResult :=
  if message_thread_id = 0 then { actions := [], raised := false }
  else
    match firstOutcome with
    | ForwardOutcome.ok =>
      { actions := [FwdAction.forwardTo message_thread_id], raised := false }
    | ForwardOutcome.threadNotFound =>
      if redisAvailable then
        if userFound then
          { actions := [FwdAction.forwardTo message_thread_id,
                        FwdAction.logInfoRecreate,
                        FwdAction.createTopic newTopicId,
                        FwdAction.persistThreadId newTopicId,
                        FwdAction.forwardTo newTopicId],
            raised := decide (retryOutcome ≠ ForwardOutcome.ok) }
        else
          { actions := [FwdAction.forwardTo message_thread_id,
                        FwdAction.logInfoRecreate],
            raised := false }
      else
        { actions := [FwdAction.forwardTo message_thread_id,
                      FwdAction.logErrorSwallow],
          raised := false }
    | ForwardOutcome.badRequestOther =>
      { actions := [FwdAction.forwardTo message_thread_id,
                    FwdAction.logErrorSwallow],
        raised := false }
    | ForwardOutcome.otherError =>
      { actions := [FwdAction.forwardTo message_thread_id,
                    FwdAction.logErrorSwallow],
        raised := false }

/-- C6: greeting selection is a pure function of the wall-clock hour in the
reference timezone, in four buckets: 6 ≤ h < 12 morning, 12 ≤ h < 18 day,
18 ≤ h < 23 evening, every other hour night; in particular 07:00 yields
morning, 13:00 day, 19:00 evening, 02:00 night. -/
theorem c6_greeting_buckets (h : Nat) :
    (6 ≤ h ∧ h < 12 → get_time_of_day_greeting h = "greeting_morning")
  ∧ (12 ≤ h ∧ h < 18 → get_time_of_day_greeting h = "greeting_day")
  ∧ (18 ≤ h ∧ h < 23 → get_time_of_day_greeting h = "greeting_evening")
  ∧ (h < 6 ∨ 23 ≤ h → get_time_of_day_greeting h = "greeting_night")
  ∧ get_time_of_day_greeting 7 = "greeting_morning"
  ∧ get_time_of_day_greeting 13 = "greeting_day"
  ∧ get_time_of_day_greeting 19 = "greeting_evening"
  ∧ get_time_of_day_greeting 2 = "greeting_night" := by
  unfold get_time_of_day_greeting
  refine ⟨?_, ?_, ?_, ?_, by norm_num, by norm_num, by norm_num, by norm_num⟩
  · intro hh
    rw [if_pos hh]
  · intro hh
    rw [if_neg (by omega), if_pos hh]
  · intro hh
    rw [if_neg (by omega), if_neg (by omega), if_pos hh]
  · intro hh
    rw [if_neg (by omega), if_neg (by omega), if_neg (by omega)]

/-- Concrete instantiation of `c6_greeting_buckets` at hour 7. -/
theorem c6_greeting_buckets_witness :
    (6 ≤ 7 ∧ 7 < 12) ∧ get_time_of_day_greeting 7 = "greeting_morning" :=
  ⟨by decide, (c6_greeting_buckets 7).1 (by decide)⟩

/-- C10: the `source_online` callback is not gated by the source-selection
flag: for every state, including `source_selected = true`, it returns the
online-sources keyboard edit and leaves the state unchanged; and every
callback other than `source_offline` and the five online sources neither
modifies `source_selected` nor renders a response that depends on it. -/
theorem c10_source_online_not_gated (st : ConvState) (data : String)
    (hoff : data ≠ "source_offline") (honline : data ∉ online_sources) :
    callback_handler "source_online" st = (st, Response.onlineMenu)
  ∧ callback_handler "source_online" { st with source_selected := true }
      = ({ st with source_selected := true }, Response.onlineMenu)
  ∧ (callback_handler data st).1.source_selected = st.source_selected
  ∧ (callback_handler data st).2
      = (callback_handler data { st with source_selected := !st.source_selected }).2 := by
  refine ⟨?_, ?_, ?_, ?_⟩
  · simp [callback_handler, SUPPORTED_LANGUAGES]
  · simp [callback_handler, SUPPORTED_LANGUAGES]
  · by_cases hlang : data ∈ SUPPORTED_LANGUAGES
    · simp [callback_handler, hlang]
    · by_cases hon : data = "source_online"
      · simp [callback_handler, hlang, hon, SUPPORTED_LANGUAGES]
      · simp [callback_handler, hlang, hon, hoff, honline]
  · by_cases hlang : data ∈ SUPPORTED_LANGUAGES
    · simp [callback_handler, hlang]
    · by_cases hon : data = "source_online"
      · simp [callback_handler, hlang, hon, SUPPORTED_LANGUAGES]
      · simp [callback_handler, hlang, hon, hoff, honline]

/-- C1: evaluation of the gate at the failing interleaving.  Two concurrent
terminal source-selection deliveries for the same user start with
`source_selected = false`.  Under the schedule read-A, read-B, act-A, act-B
(every `await` in the handler — `get_data`, `edit_text`/`edit_caption`,
`update_data` — is an asyncio switch point) both deliveries read the flag as
false before either writes it, so the thanks response is rendered twice:
not exactly one terminal response, contradicting the at-most-once gate the
code comment "Check if already answered (prevent duplicates)" intends. -/
theorem c1_concurrent_double_thanks :
    runGateSched [true, false, true, false] false ⟨0, false⟩ ⟨0, false⟩
      = [Response.thanks, Response.thanks]
  ∧ (runGateSched [true, false, true, false] false ⟨0, false⟩ ⟨0, false⟩).count
      Response.thanks ≠ 1 := by
  decide

/-- Concrete instantiation of `c10_source_online_not_gated`. -/
theorem c10_source_online_not_gated_witness :
    ("unknown_data" ≠ "source_offline")
  ∧ callback_handler "source_online" ⟨"ru", true⟩ = (⟨"ru", true⟩, Response.onlineMenu) := by
  refine ⟨by decide, ?_⟩
  have h := c10_source_online_not_gated ⟨"ru", true⟩ "unknown_data"
    (by decide) (by decide)
  exact h.1

/-- Helper: the fully reduced result of `main_menu` when the cooldown has
passed and the conversation record names an old chain whose task is still
registered and not done. -/
theorem main_menu_replace_eq (userId wallNow loopNow : Nat) (st : MenuState)
    (reg : Registry) (oldId : String)
    (hcool : ¬ (wallNow - st.last_menu_time < MENU_COOLDOWN))
    (hold : st.delayed_task_id = some oldId)
    (hlive : registryGet reg oldId = some false) :
    main_menu userId wallNow loopNow st reg =
      ({ last_menu_time := wallNow,
         delayed_task_id := some (mkTaskId userId loopNow) },
       (mkTaskId userId loopNow, false) :: registryPop reg oldId,
       [MenuAction.updateLastMenuTime wallNow, MenuAction.sendMessage,
        MenuAction.sleepSecs 3, MenuAction.sendMenu,
        MenuAction.cancelTask oldId, MenuAction.popTask oldId,
        MenuAction.createTask (mkTaskId userId loopNow),
        MenuAction.registerTask (mkTaskId userId loopNow),
        MenuAction.persistTaskId (mkTaskId userId loopNow),
        MenuAction.setStateNone]) := by
  simp [main_menu, hcool, hold, hlive]

/-- C2: at most one live chain per user.  When the main menu is rendered
while the user's recorded chain is still live in the registry, and every
live registry entry belonging to the user is that recorded chain, then
afterwards the only live registry entry belonging to the user is the newly
created chain; moreover the old chain is cancelled and evicted strictly
before the new chain's id is persisted to the record, which then names the
new chain. -/
theorem c2_at_most_one_chain (userId wallNow loopNow : Nat) (st : MenuState)
    (reg : Registry) (oldId : String)
    (hcool : ¬ (wallNow - st.last_menu_time < MENU_COOLDOWN))
    (hold : st.delayed_task_id = some oldId)
    (hlive : registryGet reg oldId = some false)
    (hinv : ∀ p ∈ reg, p.2 = false → isChainOf userId p.1 → p.1 = oldId) :
    (∀ p ∈ (main_menu userId wallNow loopNow st reg).2.1,
        p.2 = false → isChainOf userId p.1 → p.1 = mkTaskId userId loopNow)
  ∧ (∃ i j k : Nat, i < k ∧ j < k ∧
      ((main_menu userId wallNow loopNow st reg).2.2)[i]? =
        some (MenuAction.cancelTask oldId) ∧
      ((main_menu userId wallNow loopNow st reg).2.2)[j]? =
        some (MenuAction.popTask oldId) ∧
      ((main_menu userId wallNow loopNow st reg).2.2)[k]? =
        some (MenuAction.persistTaskId (mkTaskId userId loopNow)))
  ∧ (main_menu userId wallNow loopNow st reg).1.delayed_task_id
      = some (mkTaskId userId loopNow) := by
  have hmain := main_menu_replace_eq userId wallNow loopNow st reg oldId
    hcool hold hlive
  refine ⟨?_, ?_, ?_⟩
  · intro p hp hlive2 hchain
    rw [hmain] at hp
    rcases List.mem_cons.mp hp with h1 | h2
    · rw [h1]
    · have hmem := List.mem_filter.mp h2
      have heq := hinv p hmem.1 hlive2 hchain
      simp [heq] at hmem
  · refine ⟨4, 5, 8, by omega, by omega, ?_, ?_, ?_⟩ <;> rw [hmain] <;> rfl
  · rw [hmain]

/-- Concrete instantiation of `c2_at_most_one_chain`. -/
theorem c2_at_most_one_chain_witness :
    (¬ (10 - 0 < MENU_COOLDOWN))
  ∧ (main_menu 1 10 10 ⟨0, some "1_0"⟩ [("1_0", false)]).1.delayed_task_id
      = some (mkTaskId 1 10) := by
  refine ⟨by decide, ?_⟩
  exact (c2_at_most_one_chain 1 10 10 ⟨0, some "1_0"⟩ [("1_0", false)] "1_0"
    (by decide) rfl (by decide)
    (by intro p hp h1 h2; simp at hp; rw [hp])).2.2

/-- C3 counterexample: at a concrete menu render that replaces an
outstanding chain, the cancellation of the old chain (trace position 4) is
requested before the record is updated to the new chain id (trace position
8); no `persistTaskId` action occurs before the cancellation, refuting the
claim that the record points at the new chain before the old chain's
cancellation is requested. -/
theorem c3_persist_not_before_cancel :
    (main_menu 1 10 10 ⟨0, some "1_0"⟩ [("1_0", false)]).2.2
      = [MenuAction.updateLastMenuTime 10, MenuAction.sendMessage,
         MenuAction.sleepSecs 3, MenuAction.sendMenu,
         MenuAction.cancelTask "1_0", MenuAction.popTask "1_0",
         MenuAction.createTask "1_10", MenuAction.registerTask "1_10",
         MenuAction.persistTaskId "1_10", MenuAction.setStateNone]
  ∧ (∀ i < 5, ((main_menu 1 10 10 ⟨0, some "1_0"⟩ [("1_0", false)]).2.2)[i]?
        ≠ some (MenuAction.persistTaskId "1_10"))
  ∧ ((main_menu 1 10 10 ⟨0, some "1_0"⟩ [("1_0", false)]).2.2)[4]?
      = some (MenuAction.cancelTask "1_0") := by
  decide

/-- C3 amended: on chain replacement the old chain's cancellation is
requested strictly before the record is updated to the new chain id, and a
reader of `delayed_task_id` never observes an empty value in between — it
observes the old (stale) id until the new id is persisted. -/
theorem c3_cancel_before_persist (userId wallNow loopNow : Nat)
    (st : MenuState) (reg : Registry) (oldId : String)
    (hcool : ¬ (wallNow - st.last_menu_time < MENU_COOLDOWN))
    (hold : st.delayed_task_id = some oldId)
    (hlive : registryGet reg oldId = some false) :
    (∃ i j : Nat, i < j ∧
      ((main_menu userId wallNow loopNow st reg).2.2)[i]? =
        some (MenuAction.cancelTask oldId) ∧
      ((main_menu userId wallNow loopNow st reg).2.2)[j]? =
        some (MenuAction.persistTaskId (mkTaskId userId loopNow)))
  ∧ (∀ v ∈ recordTrace (some oldId)
        (main_menu userId wallNow loopNow st reg).2.2,
      v = some oldId ∨ v = some (mkTaskId userId loopNow)) := by
  have hmain := main_menu_replace_eq userId wallNow loopNow st reg oldId
    hcool hold hlive
  constructor
  · refine ⟨4, 8, by omega, ?_, ?_⟩ <;> rw [hmain] <;> rfl
  · intro v hv
    rw [hmain] at hv
    simp [recordTrace, applyRecordAction] at hv
    tauto

/-- Concrete instantiation of `c3_cancel_before_persist`. -/
theorem c3_cancel_before_persist_witness :
    (¬ (10 - 0 < MENU_COOLDOWN))
  ∧ (∃ i j : Nat, i < j ∧
      ((main_menu 2 10 10 ⟨0, some "2_0"⟩ [("2_0", false)]).2.2)[i]? =
        some (MenuAction.cancelTask "2_0") ∧
      ((main_menu 2 10 10 ⟨0, some "2_0"⟩ [("2_0", false)]).2.2)[j]? =
        some (MenuAction.persistTaskId (mkTaskId 2 10))) := by
  refine ⟨by decide, ?_⟩
  exact (c3_cancel_before_persist 2 10 10 ⟨0, some "2_0"⟩ [("2_0", false)]
    "2_0" (by decide) rfl (by decide)).1

/-- C5: debounce.  If the first menu request at `w1` passes the cooldown
check, the recorded timestamp becomes `w1`; a second request arriving less
than `MENU_COOLDOWN` seconds later returns with unchanged state, unchanged
registry and an empty side-effect list (exactly one render); a second
request at least the cooldown later proceeds, and its first side effect is
the update of the timestamp — before any further menu-triggering side
effects. -/
theorem c5_debounce (userId w1 l1 w2 l2 : Nat) (st : MenuState)
    (reg : Registry)
    (h1 : ¬ (w1 - st.last_menu_time < MENU_COOLDOWN)) :
    (main_menu userId w1 l1 st reg).1.last_menu_time = w1
  ∧ (w2 - w1 < MENU_COOLDOWN →
      main_menu userId w2 l2 (main_menu userId w1 l1 st reg).1
          (main_menu userId w1 l1 st reg).2.1
        = ((main_menu userId w1 l1 st reg).1,
           (main_menu userId w1 l1 st reg).2.1, []))
  ∧ (¬ (w2 - w1 < MENU_COOLDOWN) →
      ((main_menu userId w2 l2 (main_menu userId w1 l1 st reg).1
          (main_menu userId w1 l1 st reg).2.1).2.2)[0]?
        = some (MenuAction.updateLastMenuTime w2)) := by
  have hfst : (main_menu userId w1 l1 st reg).1
      = ⟨w1, some (mkTaskId userId l1)⟩ := by
    simp [main_menu, h1]
  refine ⟨by rw [hfst], ?_, ?_⟩
  · intro h2
    rw [hfst]
    simp [main_menu, h2]
  · intro h2
    rw [hfst]
    simp [main_menu, h2]

/-- Concrete instantiation of `c5_debounce`: a second request one second
after the first is suppressed with no side effects. -/
theorem c5_debounce_witness :
    (¬ (10 - 0 < MENU_COOLDOWN)) ∧ (11 - 10 < MENU_COOLDOWN)
  ∧ main_menu 1 11 11 (main_menu 1 10 10 ⟨0, none⟩ []).1
        (main_menu 1 10 10 ⟨0, none⟩ []).2.1
      = ((main_menu 1 10 10 ⟨0, none⟩ []).1,
         (main_menu 1 10 10 ⟨0, none⟩ []).2.1, []) := by
  refine ⟨by decide, by decide, ?_⟩
  exact (c5_debounce 1 10 10 11 11 ⟨0, none⟩ [] (by decide)).2.1 (by decide)

/-- C4 counterexample: a chain that runs to completion removes itself from
the registry, but the conversation record's `delayed_task_id` — still equal
to this chain's own id — is not cleared, contradicting the claim that it is
cleared whenever it still equals the chain's id. -/
theorem c4_active_id_not_cleared :
    (schedule_delayed_messages none false false).removedFromRegistry = true
  ∧ (schedule_delayed_messages none false false).sends
      = [SendEvent.greeting, SendEvent.followUp]
  ∧ applyChainWrites (some "1_0")
      (schedule_delayed_messages none false false).recordWrites = some "1_0"
  ∧ applyChainWrites (some "1_0")
      (schedule_delayed_messages none false false).recordWrites ≠ none := by
  decide

/-- C4 amended: upon completion, cancellation, or failure the chain is
removed from the Task Registry, and the conversation record's active-chain
identifier is left unchanged — the chain never writes it, so a chain
created later for the same user is trivially never clobbered by the older
chain's teardown. -/
theorem c4_teardown (cancelAt : Option Nat) (gf ff : Bool)
    (record : Option String) :
    (schedule_delayed_messages cancelAt gf ff).removedFromRegistry = true
  ∧ applyChainWrites record
      (schedule_delayed_messages cancelAt gf ff).recordWrites = record := by
  cases cancelAt with
  | none =>
    cases gf <;> cases ff <;>
      simp [schedule_delayed_messages, chainFinish, applyChainWrites]
  | some c =>
    by_cases h35 : c < 35
    · simp [schedule_delayed_messages, h35, applyChainWrites]
    · by_cases h43 : c < 43
      · cases gf <;>
          simp [schedule_delayed_messages, h35, h43, applyChainWrites]
      · cases gf <;> cases ff <;>
          simp [schedule_delayed_messages, chainFinish, h35, h43,
            applyChainWrites]

/-- C7: cancellation stops further sends.  For a cancellation requested `c`
seconds after chain creation: before 35 seconds nothing is sent; the
greeting is sent only when the chain reached the 35-second mark without
cancellation; the follow-up is never sent when cancellation arrives before
the 43-second mark, and is sent only when the chain was still uncancelled
at 43 seconds. -/
theorem c7_cancellation_stops_sends (c : Nat) (gf ff : Bool) :
    (c < 35 → (schedule_delayed_messages (some c) gf ff).sends = [])
  ∧ (SendEvent.greeting ∈ (schedule_delayed_messages (some c) gf ff).sends →
      35 ≤ c)
  ∧ (c < 43 →
      SendEvent.followUp ∉ (schedule_delayed_messages (some c) gf ff).sends)
  ∧ (SendEvent.followUp ∈ (schedule_delayed_messages (some c) gf ff).sends →
      43 ≤ c) := by
  by_cases h35 : c < 35
  · simp [schedule_delayed_messages, h35]
  · by_cases h43 : c < 43
    · cases gf
      · simp [schedule_delayed_messages, h35, h43]
        omega
      · simp [schedule_delayed_messages, h35, h43]
    · cases gf <;> cases ff <;>
        simp [schedule_delayed_messages, chainFinish, h35, h43] <;> omega

/-- Concrete instantiation of `c7_cancellation_stops_sends`: cancellation
at 10 seconds yields no sends at all. -/
theorem c7_cancellation_stops_sends_witness :
    (10 < 35)
  ∧ (schedule_delayed_messages (some 10) false false).sends = [] := by
  refine ⟨by decide, ?_⟩
  exact (c7_cancellation_stops_sends 10 false false).1 (by decide)

/-- C9: chain error boundary.  For every cancellation time and every
combination of send failures, the chain's registry entry is removed, nothing
propagates out of the chain task, a greeting failure terminates the chain
with no sends and no retry, and a follow-up failure never results in the
follow-up being delivered. -/
theorem c9_chain_error_boundary (cancelAt : Option Nat) (gf ff : Bool) :
    (schedule_delayed_messages cancelAt gf ff).removedFromRegistry = true
  ∧ (schedule_delayed_messages cancelAt gf ff).propagates = false
  ∧ (gf = true → (schedule_delayed_messages cancelAt gf ff).sends = [])
  ∧ (ff = true →
      SendEvent.followUp ∉ (schedule_delayed_messages cancelAt gf ff).sends) := by
  cases cancelAt with
  | none =>
    cases gf <;> cases ff <;>
      simp [schedule_delayed_messages, chainFinish]
  | some c =>
    by_cases h35 : c < 35
    · simp [schedule_delayed_messages, h35]
    · by_cases h43 : c < 43
      · cases gf <;> simp [schedule_delayed_messages, h35, h43]
      · cases gf <;> cases ff <;>
          simp [schedule_delayed_messages, chainFinish, h35, h43]

/-- Concrete instantiation of `c9_chain_error_boundary`: a greeting-send
failure leaves no sends, removes the registry entry, and nothing escapes. -/
theorem c9_chain_error_boundary_witness :
    (true = true)
  ∧ (schedule_delayed_messages none true false).sends = []
  ∧ (schedule_delayed_messages none true false).removedFromRegistry = true
  ∧ (schedule_delayed_messages none true false).propagates = false := by
  refine ⟨rfl, ?_, ?_, ?_⟩
  · exact (c9_chain_error_boundary none true false).2.2.1 rfl
  · exact (c9_chain_error_boundary none true false).1
  · exact (c9_chain_error_boundary none true false).2.1

/-- C8 counterexample: when the first forward fails with thread-not-found
and the single retry with the freshly created thread also fails, the
exception escapes `send_bot_message_to_group` into the caller — refuting
the claim that the forward operation never raises into the primary flow. -/
theorem c8_retry_failure_raises :
    (send_bot_message_to_group 100 ForwardOutcome.threadNotFound true true 200
       ForwardOutcome.threadNotFound).raised = true := by
  decide

/-- C8 amended: on a thread-not-found failure (store available, user record
present) the recoverer creates a fresh thread, persists its id, and retries
the forward exactly once targeting the new id; the call raises exactly when
that single retry fails.  Every other failure class is logged and swallowed
without raising, and a subsequent forward with the persisted id proceeds
directly without recreation. -/
theorem c8_forward_recovery (tid newId : Nat) (retryOut : ForwardOutcome)
    (htid : tid ≠ 0) (hnew : newId ≠ 0) :
    (send_bot_message_to_group tid ForwardOutcome.threadNotFound true true
        newId retryOut).actions
      = [FwdAction.forwardTo tid, FwdAction.logInfoRecreate,
         FwdAction.createTopic newId, FwdAction.persistThreadId newId,
         FwdAction.forwardTo newId]
  ∧ ((send_bot_message_to_group tid ForwardOutcome.threadNotFound true true
        newId retryOut).raised = decide (retryOut ≠ ForwardOutcome.ok))
  ∧ (send_bot_message_to_group tid ForwardOutcome.badRequestOther true true
        newId retryOut)
      = { actions := [FwdAction.forwardTo tid, FwdAction.logErrorSwallow],
          raised := false }
  ∧ (send_bot_message_to_group tid ForwardOutcome.otherError true true
        newId retryOut)
      = { actions := [FwdAction.forwardTo tid, FwdAction.logErrorSwallow],
          raised := false }
  ∧ (send_bot_message_to_group newId ForwardOutcome.ok true true 0
        ForwardOutcome.ok)
      = { actions := [FwdAction.forwardTo newId], raised := false } := by
  simp [send_bot_message_to_group, htid, hnew]

/-- Concrete instantiation of `c8_forward_recovery`. -/
theorem c8_forward_recovery_witness :
    ((100 : Nat) ≠ 0) ∧ ((200 : Nat) ≠ 0)
  ∧ (send_bot_message_to_group 100 ForwardOutcome.threadNotFound true true 200
        ForwardOutcome.ok).actions
      = [FwdAction.forwardTo 100, FwdAction.logInfoRecreate,
         FwdAction.createTopic 200, FwdAction.persistThreadId 200,
         FwdAction.forwardTo 200] := by
  refine ⟨by decide, by decide, ?_⟩
  exact (c8_forward_recovery 100 200 ForwardOutcome.ok (by decide)
    (by decide)).1

end UnifyHub
